import Mathlib

/-!
# Verification of the VAAPI hardware-decode resource manager (ffmpeg_vaapi.c)

A shallow embedding of the decode-config / surface-pool / image-retrieval
subsystem of `src/ffmpeg_vaapi.c`, together with theorems settling the
frozen claims about it.

Driver calls (`vaDestroySurfaces`, `vaDestroyContext`, ...) are modelled
as events in an explicit trace; host-side outcomes that can fail
(`av_mallocz`, `av_buffer_ref`, ...) and driver outcomes are supplied by
an environment record, so every control path of the C code is a branch of
the corresponding Lean function.
-/

namespace FfmpegVaapi

/-- `VA_INVALID_ID` from `<va/va.h>`: `0xffffffff`, the sentinel marking an
invalid driver handle. -/
def VA_INVALID_ID : Nat := 0xffffffff

/-- The two static format-table entries' pixel formats (negotiated logical
formats); `AV_PIX_FMT_YUV420P` and `AV_PIX_FMT_NV12` are the only two that
`pick_format` can ever select. -/
inductive PixFmt
  | yuv420p
  | nv12
  deriving DecidableEq, Repr

/-- `VA_FOURCC_YV12` -/
def VA_FOURCC_YV12 : Nat := 0x32315659
/-- `VA_FOURCC_NV12` -/
def VA_FOURCC_NV12 : Nat := 0x3231564e

/-! ## VAAPIConfig: the surface pool / decode config (struct VAAPIConfig) -/

/-- The fields of `struct VAAPIConfig` that the driver-facing lifecycle
touches.  `surfaces`/`surface_used` are `Option` so that a NULL pointer
(allocation failed or `av_freep`ed) is distinguishable from an allocated
array; `nb_surfaces` is kept separately, exactly as in the struct. -/
structure VAAPIConfig where
  config_id : Nat
  context_id : Nat
  surfaces : Option (List Nat)
  surface_used : Option (List Bool)
  nb_surfaces : Nat
  deriving DecidableEq, Repr

/-- One step of the teardown performed by `vaapi_free_config` (and the
host-side frees interleaved with it), in program order. -/
inductive TeardownStep
  | destroySurfaces (surfs : Option (List Nat)) (nb : Nat)
  | freeSurfacesArray
  | freeUsedArray
  | destroyContext (id : Nat)
  | destroyConfig (id : Nat)
  | unrefDevice
  | freeConfigStruct
  deriving DecidableEq, Repr

/-- `vaapi_free_config` (lines 259–275): the teardown trace of a config.
The source calls, in order: `vaDestroySurfaces` (unconditionally),
`av_freep(surfaces)`, `av_freep(surface_used)`, then `vaDestroyContext`
only if `context_id != VA_INVALID_ID`, then `vaDestroyConfig` only if
`config_id != VA_INVALID_ID`, then `av_buffer_unref(&config->ctx_buf)`
(the device reference), then `av_freep(&config)`. -/
def vaapi_free_config (c : VAAPIConfig) : List TeardownStep :=
  [TeardownStep.destroySurfaces c.surfaces c.nb_surfaces,
   TeardownStep.freeSurfacesArray, TeardownStep.freeUsedArray]
  ++ (if c.context_id ≠ VA_INVALID_ID then [TeardownStep.destroyContext c.context_id] else [])
  ++ (if c.config_id ≠ VA_INVALID_ID then [TeardownStep.destroyConfig c.config_id] else [])
  ++ [TeardownStep.unrefDevice, TeardownStep.freeConfigStruct]

/-- Recognizer for the surface-destruction event. -/
def isDestroySurfaces : TeardownStep → Bool
  | TeardownStep.destroySurfaces _ _ => true
  | _ => false

/-- Recognizer for the decode-context destruction event. -/
def isDestroyContext : TeardownStep → Bool
  | TeardownStep.destroyContext _ => true
  | _ => false

/-- Recognizer for the driver-config destruction event. -/
def isDestroyConfig : TeardownStep → Bool
  | TeardownStep.destroyConfig _ => true
  | _ => false

/-- Recognizer for the device-reference release event. -/
def isUnrefDevice : TeardownStep → Bool
  | TeardownStep.unrefDevice => true
  | _ => false

/-- In trace `tr`, some event satisfying `p` occurs strictly before every
event satisfying `q` (there is a `p` event and its first occurrence
precedes the first `q` occurrence, when a `q` occurrence exists). -/
def firstBefore (p q : TeardownStep → Bool) (tr : List TeardownStep) : Bool :=
  match tr.findIdx? p, tr.findIdx? q with
  | some i, some j => decide (i < j)
  | some _, none => true
  | none, _ => false

/-- The destruction order claimed by the spec for a config teardown:
decode context first, then the driver config object, then the surfaces,
then the device reference release. -/
def specClaimedOrder (tr : List TeardownStep) : Bool :=
  firstBefore isDestroyContext isDestroyConfig tr &&
  firstBefore isDestroyConfig isDestroySurfaces tr &&
  firstBefore isDestroySurfaces isUnrefDevice tr

/-- Does the teardown trace issue a driver surface-destroy call whose
surface array contains the `VA_INVALID_ID` sentinel? -/
def destroysInvalidSurface (tr : List TeardownStep) : Bool :=
  tr.any (fun s =>
    match s with
    | TeardownStep.destroySurfaces (some l) _ => l.contains VA_INVALID_ID
    | _ => false)

/-! ## vaapi_create_config (lines 277–362) -/

/-- Host-allocation and driver outcomes consumed by `vaapi_create_config`,
one field per fallible call, in program order.  `surfId` gives the surface
identifiers the driver returns on a successful `vaCreateSurfaces`;
`garbage` models the uninitialized contents of the `av_malloc_array`ed
surface array (read only on the failed-`vaCreateSurfaces` teardown path,
where the C code frees an array it never fully initialized). -/
structure CreateEnv where
  profileOk : Bool        -- av_vaapi_get_profile
  configAllocOk : Bool    -- av_mallocz(config)
  bufCreateOk : Bool      -- av_buffer_create(cur_config_buf)
  ctxRefOk : Bool         -- av_buffer_ref(ctx->self)
  surfArrayOk : Bool      -- av_malloc_array(surfaces)
  usedArrayOk : Bool      -- av_mallocz_array(surface_used)
  surfacesOk : Bool       -- vaCreateSurfaces status
  surfId : Nat → Nat
  garbage : Nat → Nat
  configIdRes : Option Nat  -- vaCreateConfig: some id on success
  contextIdRes : Option Nat -- vaCreateContext: some id on success
  threadFrame : Bool        -- s->active_thread_type == FF_THREAD_FRAME
  threadCount : Nat         -- s->thread_count

/-- Error codes returned by `vaapi_create_config`: `AVERROR(EINVAL)`,
`AVERROR(ENOMEM)`, and `AVERROR_UNKNOWN` (all `goto fail` paths). -/
inductive CreateErr
  | einval
  | enomem
  | unknown
  deriving DecidableEq, Repr

/-- Result of `vaapi_create_config`: either the config installed as
`ctx->cur_config`, or an error code together with the teardown trace that
the failure path produced (the `goto fail` path unrefs the just-created
buffer, whose refcount is 1, so `vaapi_free_config` runs on the config's
current state). -/
inductive CreateOutcome
  | ok (config : VAAPIConfig)
  | fail (err : CreateErr) (teardown : List TeardownStep)
  deriving DecidableEq, Repr

/-- Pool size computed at lines 315–317: fixed base 16, plus one slot per
worker thread only when frame-level threading is active. -/
def nbSurfacesOf (e : CreateEnv) : Nat :=
  16 + (if e.threadFrame then e.threadCount else 0)

/-- `vaapi_create_config` (lines 277–362).  Faithful points worth noting:
* before `config_id`/`context_id` receive the `VA_INVALID_ID` sentinel
  (lines 311–312), the `av_mallocz` has left them 0, so a failure of the
  `av_buffer_ref` at line 307 tears down a config whose handles are 0;
* a failed `vaCreateSurfaces` only writes the sentinel into
  `surfaces[0]` (line 330), leaving the rest of the array uninitialized,
  and then tears the config down. -/
def vaapi_create_config (e : CreateEnv) : CreateOutcome :=
  if ¬ e.profileOk then CreateOutcome.fail CreateErr.einval []
  else if ¬ e.configAllocOk then CreateOutcome.fail CreateErr.enomem []
  else if ¬ e.bufCreateOk then
    CreateOutcome.fail CreateErr.enomem [TeardownStep.freeConfigStruct]
  else if ¬ e.ctxRefOk then
    CreateOutcome.fail CreateErr.unknown
      (vaapi_free_config ⟨0, 0, none, none, 0⟩)
  else
    let nb := nbSurfacesOf e
    if ¬ e.surfArrayOk ∨ ¬ e.usedArrayOk then
      CreateOutcome.fail CreateErr.unknown
        (vaapi_free_config ⟨VA_INVALID_ID, VA_INVALID_ID, none, none, nb⟩)
    else if ¬ e.surfacesOk then
      CreateOutcome.fail CreateErr.unknown
        (vaapi_free_config
          ⟨VA_INVALID_ID, VA_INVALID_ID,
           some (VA_INVALID_ID :: (List.range (nb - 1)).map e.garbage),
           some (List.replicate nb false), nb⟩)
    else
      let surfs := (List.range nb).map e.surfId
      match e.configIdRes with
      | none =>
        CreateOutcome.fail CreateErr.unknown
          (vaapi_free_config
            ⟨VA_INVALID_ID, VA_INVALID_ID, some surfs,
             some (List.replicate nb false), nb⟩)
      | some cid =>
        match e.contextIdRes with
        | none =>
          CreateOutcome.fail CreateErr.unknown
            (vaapi_free_config
              ⟨cid, VA_INVALID_ID, some surfs,
               some (List.replicate nb false), nb⟩)
        | some xid =>
          CreateOutcome.ok ⟨cid, xid, some surfs, some (List.replicate nb false), nb⟩

/-! ## vaapi_get_buffer / vaapi_release_buffer (lines 203–257) -/

/-- Host-allocation outcomes consumed by one `vaapi_get_buffer` call. -/
structure AllocEnv where
  privOk : Bool  -- av_mallocz(priv)
  refOk : Bool   -- av_buffer_ref(ctx->cur_config_buf)
  bufOk : Bool   -- av_buffer_create(frame->buf[0])
  deriving DecidableEq, Repr

/-- The distinct failure paths of `vaapi_get_buffer`.  At the C ABI all
four return `AVERROR(ENOMEM)`; they are distinguished here by code path
(`poolExhausted` is the line-225 path that logs "No free surfaces
left."). -/
inductive GetBufErr
  | poolExhausted
  | allocPrivFailed
  | refConfigFailed
  | bufCreateFailed
  deriving DecidableEq, Repr

/-- The linear scan of lines 222–224: index of the first clear in-use
flag, `none` when every flag is set (`i == config->nb_surfaces`). -/
def firstFree : List Bool → Option Nat
  | [] => none
  | b :: rest => if b then (firstFree rest).map (· + 1) else some 0

/-- `vaapi_get_buffer` (lines 212–257), acting on the `surface_used` flag
array.  Returns the result (the claimed slot index on success) together
with the flag array after the call; the write
`config->surface_used[i] = 1` is the last statement before the successful
return, so every earlier exit leaves the array untouched. -/
def vaapi_get_buffer (e : AllocEnv) (used : List Bool) :
    Except GetBufErr Nat × List Bool :=
  match firstFree used with
  | none => (Except.error GetBufErr.poolExhausted, used)
  | some i =>
    if ¬ e.privOk then (Except.error GetBufErr.allocPrivFailed, used)
    else if ¬ e.refOk then (Except.error GetBufErr.refConfigFailed, used)
    else if ¬ e.bufOk then (Except.error GetBufErr.bufCreateFailed, used)
    else (Except.ok i, used.set i true)

/-- The config-level state `vaapi_release_buffer` acts on: the flag
array, the surface array, the pool size, and the config's reference
count (one strong reference is held by each live frame handle). -/
structure ReleaseState where
  surface_used : List Bool
  surfaces : List Nat
  nb_surfaces : Nat
  configRefcount : Nat
  deriving DecidableEq, Repr

/-- `vaapi_release_buffer` (lines 203–210) for a handle holding slot `i`:
`*priv->used = 0` clears that slot's flag, `av_buffer_unref(&priv->config)`
drops one config reference; nothing else is touched. -/
def vaapi_release_buffer (st : ReleaseState) (i : Nat) : ReleaseState :=
  { st with surface_used := st.surface_used.set i false,
            configRefcount := st.configRefcount - 1 }

/-- Iterate `vaapi_get_buffer` `n` times, collecting the per-call results
and threading the flag array. -/
def runAcquires (e : AllocEnv) (used : List Bool) :
    Nat → List (Except GetBufErr Nat) × List Bool
  | 0 => ([], used)
  | n + 1 =>
    let r := vaapi_get_buffer e used
    let rest := runAcquires e r.2 n
    (r.1 :: rest.1, rest.2)

/-! ### Checkout/release as a transition system (for the pool invariant) -/

/-- A pool state plus the set of slots currently held by live frame
handles. -/
structure SysState where
  used : List Bool
  live : List Nat
  deriving DecidableEq, Repr

/-- One pipeline operation against the pool: a buffer request (with its
host-allocation outcomes) or the drop of the last reference to the live
handle of slot `i` (a no-op if no live handle holds `i`). -/
inductive Op
  | acquire (e : AllocEnv)
  | release (i : Nat)
  deriving DecidableEq, Repr

/-- Effect of one operation: a successful `vaapi_get_buffer` marks the
slot and creates a live handle; a failed one changes nothing; releasing a
live handle runs `vaapi_release_buffer`'s flag-clear on its slot. -/
def stepOp (st : SysState) : Op → SysState
  | Op.acquire e =>
    match vaapi_get_buffer e st.used with
    | (Except.ok i, used') => ⟨used', i :: st.live⟩
    | (Except.error _, _) => st
  | Op.release i =>
    if i ∈ st.live then ⟨st.used.set i false, st.live.erase i⟩ else st

/-- Run a sequence of operations from a state. -/
def runOps (st : SysState) : List Op → SysState
  | [] => st
  | op :: rest => runOps (stepOp st op) rest

/-- The pool with `n` slots as `vaapi_create_config` leaves it: all flags
clear, no live handles. -/
def initState (n : Nat) : SysState :=
  ⟨List.replicate n false, []⟩

/-- Pool invariant: live handles hold pairwise distinct slots, and every
slot held by a live handle has its in-use flag set. -/
def Inv (st : SysState) : Prop :=
  st.live.Nodup ∧ ∀ i ∈ st.live, st.used.get? i = some true

instance (st : SysState) : Decidable (Inv st) := by
  unfold Inv; infer_instance

/-! ## pick_format (lines 378–414) and the static format table -/

/-- One entry of the driver's enumerated image-format array
(`VAImageFormat`); only the fourcc participates in the negotiation, the
rest of the descriptor is carried opaquely. -/
structure VAImageFormat where
  fourcc : Nat
  payload : Nat
  deriving DecidableEq, Repr

/-- The static table `vaapi_formats` (lines 102–105): YV12 mapping to
`AV_PIX_FMT_YUV420P` first, then NV12 mapping to `AV_PIX_FMT_NV12`. -/
def vaapi_formats : List (Nat × PixFmt) :=
  [(VA_FOURCC_YV12, PixFmt.yuv420p), (VA_FOURCC_NV12, PixFmt.nv12)]

/-- Error codes of `pick_format`: `AVERROR(EINVAL)` (zero formats, query
failure, or no intersection) and `AVERROR(ENOMEM)` (host allocation). -/
inductive PickErr
  | einval
  | enomem
  deriving DecidableEq, Repr

/-- The double loop of lines 402–409: walk the static table in declared
order; for each entry scan the driver list and select the first driver
descriptor with a matching fourcc, paired with the static entry's pixel
format. -/
def pickLoop : List (Nat × PixFmt) → List VAImageFormat →
    Option (VAImageFormat × PixFmt)
  | [], _ => none
  | (fcc, pf) :: rest, fmts =>
    match fmts.find? (fun f => f.fourcc == fcc) with
    | some f => some (f, pf)
    | none => pickLoop rest fmts

/-- `pick_format` (lines 378–414).  `maxNumFormats` is what
`vaMaxNumImageFormats` reports; `allocOk` the `av_mallocz_array` outcome;
`queryOk` the `vaQueryImageFormats` status; `driverFormats` the queried
array (its length is the post-query `nb_formats`).  Success yields
`(ctx->img_fmt, ctx->pix_fmt)`. -/
def pick_format (maxNumFormats : Nat) (allocOk queryOk : Bool)
    (driverFormats : List VAImageFormat) :
    Except PickErr (VAImageFormat × PixFmt) :=
  if maxNumFormats = 0 then Except.error PickErr.einval
  else if ¬ allocOk then Except.error PickErr.enomem
  else if ¬ queryOk then Except.error PickErr.einval
  else
    match pickLoop vaapi_formats driverFormats with
    | some r => Except.ok r
    | none => Except.error PickErr.einval

/-! ## vaapi_retrieve_data / vaapi_free_image (lines 107–201) -/

/-- The fields of the driver's `VAImage` descriptor used by the retrieval
path.  The C `offsets[3]`/`pitches[3]` arrays are modelled as functions
from the plane index (only indices below `num_planes`, at most 3, are
ever read). -/
structure VAImageT where
  image_id : Nat
  buf : Nat
  data_size : Nat
  num_planes : Nat
  offsets : Nat → Nat
  pitches : Nat → Nat

/-- A frame's pixel-format tag: either the opaque hardware format
(`AV_PIX_FMT_VAAPI_VLD`) or a software pixel format. -/
inductive FrameFormat
  | vaapiVld
  | pix (p : PixFmt)
  deriving DecidableEq, Repr

/-- The slice of `AVFrame` the retrieval path reads and writes: the
`data[8]` plane-pointer array (pointers as addresses), the `linesize`
array, dimensions, format, and the metadata blob `av_frame_copy_props`
copies (timestamps etc.), modelled opaquely. -/
structure AVFrame where
  data : List Nat
  linesize : List Nat
  width : Nat
  height : Nat
  format : FrameFormat
  props : Nat
  deriving DecidableEq, Repr

/-- Resource ledger for one `VAAPIImage`: is the host struct allocated,
is the device reference held, is the driver image object alive, is the
buffer mapped. -/
structure ImgRes where
  hostAlive : Bool
  refHeld : Bool
  imageAlive : Bool
  mapped : Bool
  deriving DecidableEq, Repr

/-- All four resources released. -/
def allFreed : ImgRes := ⟨false, false, false, false⟩

/-- `vaapi_free_image` (lines 107–117) acting on the ledger:
`vaUnmapBuffer` only if `img->image.buf != VA_INVALID_ID`,
`vaDestroyImage` only if `img->image.image_id != VA_INVALID_ID`, then
`av_buffer_unref(&img->ctx_buf)` and `av_freep(&img)` unconditionally. -/
def vaapi_free_image (bufId imgId : Nat) (r : ImgRes) : ImgRes :=
  { hostAlive := false, refHeld := false,
    imageAlive := if imgId ≠ VA_INVALID_ID then false else r.imageAlive,
    mapped := if bufId ≠ VA_INVALID_ID then false else r.mapped }

/-- Host and driver outcomes consumed by one `vaapi_retrieve_data` call,
one field per fallible step, in program order, plus the negotiated
`ctx->pix_fmt`. -/
structure RetrieveEnv where
  imgAllocOk : Bool             -- av_mallocz(img)
  ctxRefOk : Bool               -- av_buffer_ref(ctx->self)
  createImageRes : Option VAImageT -- vaCreateImage
  getImageOk : Bool             -- vaGetImage
  mapRes : Option Nat           -- vaMapBuffer: mapped base address
  bufCreateOk : Bool            -- av_buffer_create(tmp_frame->buf[0])
  copyPropsOk : Bool            -- av_frame_copy_props
  pix_fmt : PixFmt              -- ctx->pix_fmt

/-- Error classification of `vaapi_retrieve_data`: the `AVERROR(ENOMEM)`
paths and the three `AVERROR_UNKNOWN` driver stages, plus the
`av_frame_copy_props` error passthrough. -/
inductive RetErr
  | enomemImg
  | enomemRef
  | createImageFailed
  | getImageFailed
  | mapBufferFailed
  | enomemBufCreate
  | copyPropsFailed
  deriving DecidableEq, Repr

/-- The `tmp_frame` plane pointers written by the loop at lines 178–181:
`data[i] = mapped base + offsets[i]` for `i < num_planes`; the remaining
entries of the freshly reset frame stay 0 (NULL). -/
def planesOf (base : Nat) (im : VAImageT) : List Nat :=
  (List.range 8).map (fun i => if i < im.num_planes then base + im.offsets i else 0)

/-- The `tmp_frame` linesizes written by the same loop:
`linesize[i] = pitches[i]` for `i < num_planes`. -/
def linesizesOf (im : VAImageT) : List Nat :=
  (List.range 8).map (fun i => if i < im.num_planes then im.pitches i else 0)

/-- The chroma-plane swap of line 198: `FFSWAP(data[1], data[2])`. -/
def swap12 (l : List Nat) : List Nat :=
  (l.set 1 (l.getD 2 0)).set 2 (l.getD 1 0)

/-- `vaapi_retrieve_data` (lines 119–201).  Returns the call result, the
caller's frame after the call (replaced only on full success, by the
`av_frame_unref`/`av_frame_move_ref` pair at lines 192–193, with the
chroma swap applied afterwards exactly when the frame's format is
`AV_PIX_FMT_YUV420P`), and the final resource ledger of the image object
(on success its resources stay alive, owned by the new frame's buffer
reference). -/
def vaapi_retrieve_data (e : RetrieveEnv) (frame : AVFrame) :
    Except RetErr Unit × AVFrame × ImgRes :=
  if ¬ e.imgAllocOk then (Except.error RetErr.enomemImg, frame, allFreed)
  else if ¬ e.ctxRefOk then
    -- av_freep(&img) directly: only the host struct existed
    (Except.error RetErr.enomemRef, frame, allFreed)
  else
    match e.createImageRes with
    | none =>
      -- img->image.{buf,image_id} still hold the sentinel here
      (Except.error RetErr.createImageFailed, frame,
       vaapi_free_image VA_INVALID_ID VA_INVALID_ID ⟨true, true, false, false⟩)
    | some im =>
      if ¬ e.getImageOk then
        (Except.error RetErr.getImageFailed, frame,
         vaapi_free_image im.buf im.image_id ⟨true, true, true, false⟩)
      else
        match e.mapRes with
        | none =>
          (Except.error RetErr.mapBufferFailed, frame,
           vaapi_free_image im.buf im.image_id ⟨true, true, true, false⟩)
        | some base =>
          if ¬ e.bufCreateOk then
            (Except.error RetErr.enomemBufCreate, frame,
             vaapi_free_image im.buf im.image_id ⟨true, true, true, true⟩)
          else if ¬ e.copyPropsOk then
            -- av_frame_unref(ctx->tmp_frame) drops buf[0], running vaapi_free_image
            (Except.error RetErr.copyPropsFailed, frame,
             vaapi_free_image im.buf im.image_id ⟨true, true, true, true⟩)
          else
            let tmpData := planesOf base im
            (Except.ok (),
             { data := if e.pix_fmt = PixFmt.yuv420p then swap12 tmpData else tmpData,
               linesize := linesizesOf im,
               width := frame.width, height := frame.height,
               format := FrameFormat.pix e.pix_fmt,
               props := frame.props },
             ⟨true, true, true, true⟩)

/-! ## List helper lemmas -/

theorem listGet_replicate {α : Type} (a : α) :
    ∀ n i, i < n → (List.replicate n a).get? i = some a := by
  intro n
  induction n with
  | zero => intro i hi; omega
  | succ m ih =>
    intro i hi
    cases i with
    | zero => rfl
    | succ k => exact ih k (by omega)

theorem listGet_set_self {α : Type} :
    ∀ (l : List α) (i : Nat) (a : α), i < l.length →
      (l.set i a).get? i = some a := by
  intro l
  induction l with
  | nil => intro i a hi; simp at hi
  | cons x xs ih =>
    intro i a hi
    cases i with
    | zero => rfl
    | succ k => exact ih k a (by simpa using hi)

theorem listGet_set_other {α : Type} :
    ∀ (l : List α) (i j : Nat) (a : α), i ≠ j →
      (l.set i a).get? j = l.get? j := by
  intro l
  induction l with
  | nil => intro i j a _; simp
  | cons x xs ih =>
    intro i j a hij
    cases i with
    | zero =>
      cases j with
      | zero => exact absurd rfl hij
      | succ m => rfl
    | succ k =>
      cases j with
      | zero => rfl
      | succ m => exact ih k m a (by omega)

/-! ## Claim C1: destruction order in vaapi_free_config -/

/-- A concrete fully-initialized config: driver config handle 7, decode
context handle 5, two surfaces. -/
def cfgC1 : VAAPIConfig :=
  ⟨7, 5, some [41, 42], some [false, false], 2⟩

/-- C1 counterexample: on a fully-valid config, the teardown trace of
`vaapi_free_config` destroys the surfaces FIRST, then the decode context,
then the driver config object, then releases the device reference — so
the spec's claimed order (context first, then config object, then
surfaces, then device reference) does not hold on the code. -/
theorem C1_counterexample :
    vaapi_free_config cfgC1 =
      [TeardownStep.destroySurfaces (some [41, 42]) 2,
       TeardownStep.freeSurfacesArray, TeardownStep.freeUsedArray,
       TeardownStep.destroyContext 5, TeardownStep.destroyConfig 7,
       TeardownStep.unrefDevice, TeardownStep.freeConfigStruct] ∧
    specClaimedOrder (vaapi_free_config cfgC1) = false := by
  constructor
  · rfl
  · decide

/-- C1 (amended): when the last reference to a config is dropped and its
driver handles are valid, `vaapi_free_config` performs the destructions
in the order: surfaces first, then the decode context, then the driver
config object, and finally releases the device reference. -/
theorem C1_teardown_order (c : VAAPIConfig)
    (hctx : c.context_id ≠ VA_INVALID_ID)
    (hcfg : c.config_id ≠ VA_INVALID_ID) :
    vaapi_free_config c =
      [TeardownStep.destroySurfaces c.surfaces c.nb_surfaces,
       TeardownStep.freeSurfacesArray, TeardownStep.freeUsedArray,
       TeardownStep.destroyContext c.context_id,
       TeardownStep.destroyConfig c.config_id,
       TeardownStep.unrefDevice, TeardownStep.freeConfigStruct] := by
  unfold vaapi_free_config
  rw [if_pos hctx, if_pos hcfg]
  rfl

/-- C1 witness: the amended teardown order, evaluated on the concrete
config `cfgC1`. -/
theorem C1_teardown_order_witness :
    vaapi_free_config cfgC1 =
      [TeardownStep.destroySurfaces (some [41, 42]) 2,
       TeardownStep.freeSurfacesArray, TeardownStep.freeUsedArray,
       TeardownStep.destroyContext 5, TeardownStep.destroyConfig 7,
       TeardownStep.unrefDevice, TeardownStep.freeConfigStruct] :=
  C1_teardown_order cfgC1 (by decide) (by decide)

/-! ## Claim C5: pool sizing at creation -/

/-- C5: a successful `vaapi_create_config` sizes the pool at the fixed
base 16 plus, only when frame-level threading is active, one slot per
worker thread; every in-use flag starts clear; and the pool size is never
changed afterwards (`vaapi_get_buffer` and `vaapi_release_buffer`
preserve the flag-array length and `nb_surfaces`). -/
theorem C5_pool_size (e : CreateEnv) (c : VAAPIConfig)
    (h : vaapi_create_config e = CreateOutcome.ok c) :
    c.nb_surfaces = 16 + (if e.threadFrame then e.threadCount else 0) ∧
    c.surface_used = some (List.replicate c.nb_surfaces false) ∧
    (∀ i, i < c.nb_surfaces →
      (List.replicate c.nb_surfaces (false : Bool)).get? i = some false) ∧
    (∀ a used, ((vaapi_get_buffer a used).2).length = used.length) ∧
    (∀ st i, ((vaapi_release_buffer st i).surface_used).length =
        st.surface_used.length ∧
      (vaapi_release_buffer st i).nb_surfaces = st.nb_surfaces) := by
  refine ⟨?_, ?_, ?_, ?_, ?_⟩
  · unfold vaapi_create_config at h
    split_ifs at h <;> try exact (CreateOutcome.noConfusion h)
    rcases hc : e.configIdRes with _ | cid <;> rw [hc] at h
    · exact (CreateOutcome.noConfusion h)
    rcases hx : e.contextIdRes with _ | xid <;> rw [hx] at h
    · exact (CreateOutcome.noConfusion h)
    cases h
    rfl
  · unfold vaapi_create_config at h
    split_ifs at h <;> try exact (CreateOutcome.noConfusion h)
    rcases hc : e.configIdRes with _ | cid <;> rw [hc] at h
    · exact (CreateOutcome.noConfusion h)
    rcases hx : e.contextIdRes with _ | xid <;> rw [hx] at h
    · exact (CreateOutcome.noConfusion h)
    cases h
    rfl
  · intro i hi
    exact listGet_replicate false c.nb_surfaces i hi
  · intro a used
    unfold vaapi_get_buffer
    rcases firstFree used with _ | i
    · rfl
    · simp only []
      split_ifs <;> simp [List.length_set]
  · intro st i
    exact ⟨List.length_set .., rfl⟩

/-- C5 witness: a concrete successful creation with frame-level threading
and 4 worker threads yields a pool of 20 all-free slots. -/
theorem C5_pool_size_witness :
    (⟨9, 11, some ((List.range 20).map (fun i => i + 100)),
      some (List.replicate 20 false), 20⟩ : VAAPIConfig).nb_surfaces =
      16 + (if true then 4 else 0) ∧
    (⟨9, 11, some ((List.range 20).map (fun i => i + 100)),
      some (List.replicate 20 false), 20⟩ : VAAPIConfig).surface_used =
      some (List.replicate 20 false) ∧
    (∀ i, i < (20 : Nat) →
      (List.replicate 20 (false : Bool)).get? i = some false) ∧
    (∀ a used, ((vaapi_get_buffer a used).2).length = used.length) ∧
    (∀ st i, ((vaapi_release_buffer st i).surface_used).length =
        st.surface_used.length ∧
      (vaapi_release_buffer st i).nb_surfaces = st.nb_surfaces) := by
  have h := C5_pool_size
    { profileOk := true, configAllocOk := true, bufCreateOk := true,
      ctxRefOk := true, surfArrayOk := true, usedArrayOk := true,
      surfacesOk := true, surfId := fun i => i + 100, garbage := fun _ => 0,
      configIdRes := some 9, contextIdRes := some 11,
      threadFrame := true, threadCount := 4 }
    ⟨9, 11, some ((List.range 20).map (fun i => i + 100)),
     some (List.replicate 20 false), 20⟩
    rfl
  exact h

/-! ## Claim C2: sentinel handling during partial-state teardown -/

/-- In any teardown trace of `vaapi_free_config`, no decode-context or
driver-config destroy call is ever issued with the sentinel id: those two
destructions are guarded by `!= VA_INVALID_ID` checks. -/
theorem free_config_no_sentinel_handle_destroy (c : VAAPIConfig) :
    ∀ s ∈ vaapi_free_config c,
      s ≠ TeardownStep.destroyContext VA_INVALID_ID ∧
      s ≠ TeardownStep.destroyConfig VA_INVALID_ID := by
  intro s hs
  unfold vaapi_free_config at hs
  split_ifs at hs with h1 h2 h2 <;>
    simp only [List.cons_append, List.nil_append, List.mem_cons,
      List.not_mem_nil, or_false] at hs <;>
    rcases hs with rfl | rfl | rfl | rfl | rfl | rfl | rfl <;>
    refine ⟨?_, ?_⟩ <;>
    intro hcontra <;>
    first
      | exact TeardownStep.noConfusion hcontra
      | (injection hcontra with hid; exact h1 hid)
      | (injection hcontra with hid; exact h2 hid)

/-- Every teardown trace produced by a failed `vaapi_create_config` is
either empty, the lone host free of the config struct, or a full
`vaapi_free_config` run on the config's state at the failure point. -/
theorem create_fail_trace_shape (e : CreateEnv) (err : CreateErr)
    (tr : List TeardownStep)
    (h : vaapi_create_config e = CreateOutcome.fail err tr) :
    tr = [] ∨ tr = [TeardownStep.freeConfigStruct] ∨
      ∃ c, tr = vaapi_free_config c := by
  rcases hc : e.configIdRes with _ | cid <;>
  rcases hx : e.contextIdRes with _ | xid <;>
  simp only [vaapi_create_config, hc, hx] at h <;>
  split_ifs at h <;>
  (try cases h) <;>
  first
    | exact Or.inl rfl
    | exact Or.inr (Or.inl rfl)
    | exact Or.inr (Or.inr ⟨_, rfl⟩)

/-- The environment of a creation run in which everything succeeds except
the driver surface-creation call. -/
def envC2 : CreateEnv :=
  { profileOk := true, configAllocOk := true, bufCreateOk := true,
    ctxRefOk := true, surfArrayOk := true, usedArrayOk := true,
    surfacesOk := false, surfId := fun i => i + 100, garbage := fun _ => 0,
    configIdRes := some 9, contextIdRes := some 11,
    threadFrame := false, threadCount := 0 }

/-- The teardown trace carried by a failed creation outcome. -/
def createFailTeardown : CreateOutcome → List TeardownStep
  | CreateOutcome.ok _ => []
  | CreateOutcome.fail _ tr => tr

/-- Is the outcome a failure with `AVERROR_UNKNOWN`? -/
def isFailUnknown : CreateOutcome → Bool
  | CreateOutcome.fail CreateErr.unknown _ => true
  | _ => false

/-- C2 counterexample: when `vaCreateSurfaces` fails, the code marks only
`surfaces[0]` with the sentinel and the subsequent teardown still issues
the driver surface-destroy call on that array — the sentinel-marked
surface handle is NOT skipped, contradicting the claim that every
sentinel-marked handle is skipped during teardown. -/
theorem C2_counterexample :
    isFailUnknown (vaapi_create_config envC2) = true ∧
    destroysInvalidSurface (createFailTeardown (vaapi_create_config envC2)) =
      true := by
  constructor
  · decide
  · decide

/-- C2 (amended): on a successful creation the driver handles are exactly
the driver-returned ones (hence all valid when the driver returns valid
handles); on any failed creation the teardown skips every
decode-context/driver-config destroy whose handle holds the sentinel, but
the surface-destroy driver call is not guarded: when only the
surface-creation step failed, the very first teardown step is a driver
surface-destroy on the array whose first element is the sentinel. -/
theorem C2_partial_state_teardown (e : CreateEnv) (err : CreateErr)
    (tr : List TeardownStep)
    (h : vaapi_create_config e = CreateOutcome.fail err tr) :
    (∀ s ∈ tr, s ≠ TeardownStep.destroyContext VA_INVALID_ID ∧
               s ≠ TeardownStep.destroyConfig VA_INVALID_ID) ∧
    (e.profileOk = true → e.configAllocOk = true → e.bufCreateOk = true →
     e.ctxRefOk = true → e.surfArrayOk = true → e.usedArrayOk = true →
     e.surfacesOk = false →
       tr.head? = some (TeardownStep.destroySurfaces
         (some (VA_INVALID_ID ::
           (List.range (nbSurfacesOf e - 1)).map e.garbage))
         (nbSurfacesOf e))) ∧
    (∀ e2 c, vaapi_create_config e2 = CreateOutcome.ok c →
       e2.configIdRes = some c.config_id ∧
       e2.contextIdRes = some c.context_id ∧
       c.surfaces = some ((List.range c.nb_surfaces).map e2.surfId)) := by
  refine ⟨?_, ?_, ?_⟩
  · rcases create_fail_trace_shape e err tr h with rfl | rfl | ⟨c, rfl⟩
    · intro s hs; simp at hs
    · intro s hs
      simp only [List.mem_singleton] at hs
      subst hs
      exact ⟨fun hcontra => TeardownStep.noConfusion hcontra,
             fun hcontra => TeardownStep.noConfusion hcontra⟩
    · exact free_config_no_sentinel_handle_destroy c
  · intro hp ha hb hr hsa hua hsf
    simp only [vaapi_create_config, hp, ha, hb, hr, hsa, hua, hsf,
      not_true_eq_false, not_false_eq_true, Bool.false_eq_true, if_false,
      if_true, or_self, ite_false, ite_true] at h
    cases h
    rfl
  · intro e2 c h2
    unfold vaapi_create_config at h2
    split_ifs at h2 <;> try exact (CreateOutcome.noConfusion h2)
    rcases hc : e2.configIdRes with _ | cid <;> rw [hc] at h2
    · exact (CreateOutcome.noConfusion h2)
    rcases hx : e2.contextIdRes with _ | xid <;> rw [hx] at h2
    · exact (CreateOutcome.noConfusion h2)
    cases h2
    exact ⟨rfl, rfl, rfl⟩

/-- C2 witness: the amended statement evaluated on the concrete
surface-creation-failure environment `envC2`. -/
theorem C2_partial_state_teardown_witness :
    (∀ s ∈ createFailTeardown (vaapi_create_config envC2),
      s ≠ TeardownStep.destroyContext VA_INVALID_ID ∧
      s ≠ TeardownStep.destroyConfig VA_INVALID_ID) ∧
    (createFailTeardown (vaapi_create_config envC2)).head? =
      some (TeardownStep.destroySurfaces
        (some (VA_INVALID_ID :: (List.range 15).map (fun _ => 0)))
        16) := by
  have h := C2_partial_state_teardown envC2 CreateErr.unknown
    (createFailTeardown (vaapi_create_config envC2)) rfl
  exact ⟨h.1, h.2.1 rfl rfl rfl rfl rfl rfl rfl⟩

/-! ## Lemmas about the free-slot scan and the flag array -/

theorem listGet_lt_length {α : Type} :
    ∀ (l : List α) (i : Nat) (a : α), l.get? i = some a → i < l.length := by
  intro l
  induction l with
  | nil => intro i a h; simp at h
  | cons x xs ih =>
    intro i a h
    cases i with
    | zero => simp
    | succ k =>
      have := ih k a h
      simpa using Nat.succ_lt_succ this

theorem firstFree_cons_false (rest : List Bool) :
    firstFree (false :: rest) = some 0 := rfl

theorem firstFree_cons_true (rest : List Bool) :
    firstFree (true :: rest) = (firstFree rest).map (· + 1) := rfl

theorem firstFree_spec :
    ∀ (l : List Bool) (i : Nat), firstFree l = some i →
      l.get? i = some false ∧ ∀ j, j < i → l.get? j = some true := by
  intro l
  induction l with
  | nil => intro i h; simp [firstFree] at h
  | cons b rest ih =>
    intro i h
    cases b with
    | false =>
      rw [firstFree_cons_false] at h
      cases h
      exact ⟨rfl, fun j hj => absurd hj (Nat.not_lt_zero j)⟩
    | true =>
      rw [firstFree_cons_true] at h
      rcases hk : firstFree rest with _ | k <;> rw [hk] at h
      · simp at h
      · simp only [Option.map_some'] at h
        cases h
        rcases ih k hk with ⟨h1, h2⟩
        refine ⟨h1, ?_⟩
        intro j hj
        cases j with
        | zero => rfl
        | succ m => exact h2 m (by omega)

theorem firstFree_none :
    ∀ l : List Bool, firstFree l = none → ∀ b ∈ l, b = true := by
  intro l
  induction l with
  | nil => intro _ b hb; simp at hb
  | cons x rest ih =>
    intro h b hb
    cases x with
    | false => rw [firstFree_cons_false] at h; exact Option.noConfusion h
    | true =>
      rw [firstFree_cons_true] at h
      have h2 : firstFree rest = none := by
        rcases hk : firstFree rest with _ | k
        · rfl
        · rw [hk] at h; simp at h
      rcases List.mem_cons.mp hb with rfl | hb2
      · rfl
      · exact ih h2 b hb2

theorem firstFree_replicate_true (n : Nat) :
    firstFree (List.replicate n true) = none := by
  induction n with
  | zero => rfl
  | succ m ih => simp [List.replicate_succ, firstFree, ih]

theorem firstFree_replicate_append (j : Nat) (rest : List Bool) :
    firstFree (List.replicate j true ++ false :: rest) = some j := by
  induction j with
  | zero => rfl
  | succ m ih => simp [List.replicate_succ, firstFree, ih]

theorem set_replicate_append (j : Nat) (rest : List Bool) :
    (List.replicate j true ++ false :: rest).set j true =
      List.replicate (j + 1) true ++ rest := by
  induction j with
  | zero => rfl
  | succ m ih => simp [List.replicate_succ, List.set, ih]

theorem set_replicate_true_false (n k : Nat) (hk : k < n) :
    (List.replicate n true).set k false =
      List.replicate k true ++ false :: List.replicate (n - k - 1) true := by
  induction n generalizing k with
  | zero => omega
  | succ m ih =>
    cases k with
    | zero => simp [List.replicate_succ]
    | succ p =>
      have hp2 : p < m := by omega
      simp only [List.replicate_succ, List.set, ih p hp2, List.cons_append,
        Nat.succ_sub_succ_eq_sub]

theorem runAcquires_succ (e : AllocEnv) (used : List Bool) (n : Nat) :
    runAcquires e used (n + 1) =
      ((vaapi_get_buffer e used).1 ::
         (runAcquires e (vaapi_get_buffer e used).2 n).1,
       (runAcquires e (vaapi_get_buffer e used).2 n).2) := rfl

/-- From a pool whose first `j` flags are set and remaining `m` clear,
`m + 1` good-environment acquisitions return slots `j, j+1, ...` in order
and then fail with pool exhaustion, leaving every flag set. -/
theorem runAcquires_fill (e : AllocEnv) (hp : e.privOk = true)
    (hr : e.refOk = true) (hb : e.bufOk = true) :
    ∀ (m j : Nat),
      runAcquires e (List.replicate j true ++ List.replicate m false) (m + 1) =
        ((List.range m).map (fun t => Except.ok (j + t)) ++
           [Except.error GetBufErr.poolExhausted],
         List.replicate (j + m) true) := by
  intro m
  induction m with
  | zero =>
    intro j
    simp [runAcquires, vaapi_get_buffer, firstFree_replicate_true]
  | succ m ih =>
    intro j
    have hstep : vaapi_get_buffer e
        (List.replicate j true ++ List.replicate (m + 1) false) =
        (Except.ok j, List.replicate (j + 1) true ++ List.replicate m false) := by
      rw [List.replicate_succ]
      simp only [vaapi_get_buffer, firstFree_replicate_append, hp, hr, hb,
        not_true_eq_false, if_false, ite_false, set_replicate_append]
    rw [runAcquires_succ, hstep]
    dsimp only
    rw [ih (j + 1)]
    have hfun : (fun t => (Except.ok (j + 1 + t) : Except GetBufErr Nat)) =
        fun t => Except.ok (j + (t + 1)) := by
      funext t; congr 1; omega
    simp only [Prod.mk.injEq]
    constructor
    · rw [List.range_succ_eq_map, List.map_cons, List.map_map, hfun]
      simp [Function.comp_def, Nat.add_zero]
    · congr 1
      omega

/-! ## Claim C3: pool exhaustion and slot reuse -/

/-- C3: from a fresh pool of `N` clear flags with host allocations
succeeding, the first `N` `vaapi_get_buffer` calls return slots
`0..N-1` and the `(N+1)`th fails immediately on the no-free-surfaces
path, without blocking or growing the array; after exactly one release
of slot `k`, the next call succeeds and returns the freed slot `k`. -/
theorem C3_exhaustion_and_reuse (N k : Nat) (e : AllocEnv) (surfs : List Nat)
    (rc : Nat) (hk : k < N) (hp : e.privOk = true) (hr : e.refOk = true)
    (hb : e.bufOk = true) :
    (runAcquires e (List.replicate N false) (N + 1)).1 =
      (List.range N).map Except.ok ++
        [Except.error GetBufErr.poolExhausted] ∧
    (runAcquires e (List.replicate N false) (N + 1)).2 =
      List.replicate N true ∧
    vaapi_get_buffer e
        (vaapi_release_buffer ⟨List.replicate N true, surfs, N, rc⟩
          k).surface_used =
      (Except.ok k, List.replicate N true) := by
  have hfill := runAcquires_fill e hp hr hb N 0
  rw [List.replicate_zero, List.nil_append] at hfill
  refine ⟨?_, ?_, ?_⟩
  · rw [hfill]
    simp
  · rw [hfill]
    simp
  · show vaapi_get_buffer e ((List.replicate N true).set k false) = _
    rw [set_replicate_true_false N k hk]
    simp only [vaapi_get_buffer, firstFree_replicate_append, hp, hr, hb,
      not_true_eq_false, if_false, ite_false, set_replicate_append]
    have : (k + 1) + (N - k - 1) = N := by omega
    rw [← List.replicate_add, this]

/-- C3 witness: the exhaustion/reuse behaviour on a concrete pool of
size 3 with slot 1 released. -/
theorem C3_exhaustion_and_reuse_witness :
    (runAcquires ⟨true, true, true⟩ (List.replicate 3 false) 4).1 =
      (List.range 3).map Except.ok ++
        [Except.error GetBufErr.poolExhausted] ∧
    (runAcquires ⟨true, true, true⟩ (List.replicate 3 false) 4).2 =
      List.replicate 3 true ∧
    vaapi_get_buffer ⟨true, true, true⟩
        (vaapi_release_buffer ⟨List.replicate 3 true, [7, 8, 9], 3, 2⟩
          1).surface_used =
      (Except.ok 1, List.replicate 3 true) :=
  C3_exhaustion_and_reuse 3 1 ⟨true, true, true⟩ [7, 8, 9] 2
    (by decide) rfl rfl rfl

/-! ## Claim C4: slot exclusivity invariant -/

/-- Inversion of a successful `vaapi_get_buffer` call: the returned slot
is the first free one and the only state change is setting its flag. -/
theorem get_buffer_ok_inv (e : AllocEnv) (used used2 : List Bool) (i : Nat)
    (h : vaapi_get_buffer e used = (Except.ok i, used2)) :
    firstFree used = some i ∧ used2 = used.set i true := by
  rcases hf : firstFree used with _ | j
  all_goals simp only [vaapi_get_buffer, hf] at h
  · exact Except.noConfusion (congrArg Prod.fst h)
  · split_ifs at h
    all_goals
      first
        | exact Except.noConfusion (congrArg Prod.fst h)
        | (cases Except.ok.inj (congrArg Prod.fst h)
           exact ⟨rfl, (congrArg Prod.snd h).symm⟩)

/-- Every step of the checkout/release transition system preserves the
pool invariant. -/
theorem inv_step (st : SysState) (op : Op) (hinv : Inv st) :
    Inv (stepOp st op) := by
  rcases hinv with ⟨hnd, hflag⟩
  cases op with
  | acquire e =>
    rcases hgb : vaapi_get_buffer e st.used with ⟨r, used2⟩
    cases r with
    | error err =>
      simp only [stepOp, hgb]
      exact ⟨hnd, hflag⟩
    | ok i =>
      rcases get_buffer_ok_inv e st.used used2 i hgb with ⟨hff, rfl⟩
      rcases firstFree_spec st.used i hff with ⟨hfalse, _⟩
      have hlen : i < st.used.length := listGet_lt_length st.used i false hfalse
      have hni : i ∉ st.live := by
        intro hmem
        have hone := hflag i hmem
        rw [hfalse] at hone
        exact Bool.noConfusion (Option.some.inj hone)
      simp only [stepOp, hgb]
      refine ⟨List.nodup_cons.mpr ⟨hni, hnd⟩, ?_⟩
      intro m hm
      rcases List.mem_cons.mp hm with rfl | hm2
      · exact listGet_set_self st.used m true hlen
      · have hmi : i ≠ m := fun he => hni (he ▸ hm2)
        rw [listGet_set_other st.used i m true hmi]
        exact hflag m hm2
  | release i =>
    simp only [stepOp]
    split_ifs with hmem
    · refine ⟨hnd.erase i, ?_⟩
      intro m hm
      have hm2 : m ≠ i ∧ m ∈ st.live := (List.Nodup.mem_erase_iff hnd).mp hm
      rw [listGet_set_other st.used i m false (Ne.symm hm2.1)]
      exact hflag m hm2.2
    · exact ⟨hnd, hflag⟩

/-- The invariant is preserved by any run of operations. -/
theorem inv_runOps (ops : List Op) :
    ∀ st, Inv st → Inv (runOps st ops) := by
  induction ops with
  | nil => intro st h; exact h
  | cons op rest ih => intro st h; exact ih _ (inv_step st op h)

/-- C4: in every sequence of checkout/release operations starting from a
fresh pool, at most one live frame handle references a given slot (the
live-slot list stays duplicate-free, and each live slot's in-use flag is
set); a successful `vaapi_get_buffer` on any state satisfying the
invariant never returns a slot a live handle already holds, and returns
the lowest-index slot whose in-use flag is clear — the flag array being
the sole arbiter. -/
theorem C4_slot_exclusivity (n : Nat) (ops : List Op) :
    Inv (runOps (initState n) ops) ∧
    (∀ st e i used2, Inv st →
      vaapi_get_buffer e st.used = (Except.ok i, used2) →
      i ∉ st.live ∧ st.used.get? i = some false ∧
        ∀ j, j < i → st.used.get? j = some true) := by
  constructor
  · exact inv_runOps ops (initState n)
      ⟨List.nodup_nil, fun i hi => absurd hi (List.not_mem_nil i)⟩
  · intro st e i used2 hinv hgb
    rcases get_buffer_ok_inv e st.used used2 i hgb with ⟨hff, _⟩
    rcases firstFree_spec st.used i hff with ⟨hfalse, hbefore⟩
    refine ⟨?_, hfalse, hbefore⟩
    intro hmem
    have hone := hinv.2 i hmem
    rw [hfalse] at hone
    exact Bool.noConfusion (Option.some.inj hone)

/-- C4 witness: the invariant after a concrete acquire/release run on a
2-slot pool, and the exclusivity facts for a concrete successful call. -/
theorem C4_slot_exclusivity_witness :
    Inv (runOps (initState 2)
      [Op.acquire ⟨true, true, true⟩, Op.release 0]) ∧
    ((0 : Nat) ∉ (initState 2).live ∧
      (initState 2).used.get? 0 = some false ∧
      ∀ j, j < 0 → (initState 2).used.get? j = some true) :=
  ⟨(C4_slot_exclusivity 2 [Op.acquire ⟨true, true, true⟩, Op.release 0]).1,
   (C4_slot_exclusivity 2 []).2 (initState 2) ⟨true, true, true⟩ 0
     [true, false] (by decide) rfl⟩

/-! ## Claim C9: release touches exactly its own slot -/

/-- C9: releasing the last reference to the frame handle of slot `i`
clears exactly that slot's in-use flag and drops one config reference;
every other slot's flag, the surface array, and the pool size are
unchanged. -/
theorem C9_release_effect (st : ReleaseState) (i : Nat)
    (hi : i < st.surface_used.length) :
    (vaapi_release_buffer st i).surface_used.get? i = some false ∧
    (∀ j, j ≠ i → (vaapi_release_buffer st i).surface_used.get? j =
      st.surface_used.get? j) ∧
    (vaapi_release_buffer st i).surfaces = st.surfaces ∧
    (vaapi_release_buffer st i).nb_surfaces = st.nb_surfaces ∧
    (vaapi_release_buffer st i).surface_used.length =
      st.surface_used.length ∧
    (vaapi_release_buffer st i).configRefcount = st.configRefcount - 1 := by
  refine ⟨listGet_set_self st.surface_used i false hi, ?_, rfl, rfl,
    List.length_set .., rfl⟩
  intro j hj
  exact listGet_set_other st.surface_used i j false (Ne.symm hj)

/-- C9 witness: the release contract evaluated on a concrete two-slot
pool, releasing slot 0. -/
theorem C9_release_effect_witness :
    (vaapi_release_buffer ⟨[true, true], [5, 6], 2, 3⟩ 0).surface_used.get? 0 =
      some false ∧
    (∀ j, j ≠ 0 →
      (vaapi_release_buffer ⟨[true, true], [5, 6], 2, 3⟩ 0).surface_used.get? j
        = [true, true].get? j) ∧
    (vaapi_release_buffer ⟨[true, true], [5, 6], 2, 3⟩ 0).surfaces = [5, 6] ∧
    (vaapi_release_buffer ⟨[true, true], [5, 6], 2, 3⟩ 0).nb_surfaces = 2 ∧
    (vaapi_release_buffer ⟨[true, true], [5, 6], 2, 3⟩ 0).surface_used.length
      = 2 ∧
    (vaapi_release_buffer ⟨[true, true], [5, 6], 2, 3⟩ 0).configRefcount = 2 :=
  C9_release_effect ⟨[true, true], [5, 6], 2, 3⟩ 0 (by decide)

/-! ## Claim C10: failing acquisitions leave the flags untouched -/

/-- C10: every failing `vaapi_get_buffer` call (pool exhausted, host
struct allocation failure, config-reference failure, or buffer-creation
failure) leaves the in-use flag array exactly as it was; on success the
call implies every allocation succeeded, and the only change is setting
the returned slot's flag — the flag write is the last step of the
call. -/
theorem C10_failure_no_flag_change (e : AllocEnv) (used : List Bool) :
    (∀ err, (vaapi_get_buffer e used).1 = Except.error err →
      (vaapi_get_buffer e used).2 = used) ∧
    (∀ i, (vaapi_get_buffer e used).1 = Except.ok i →
      e.privOk = true ∧ e.refOk = true ∧ e.bufOk = true ∧
      (vaapi_get_buffer e used).2 = used.set i true) := by
  constructor
  · intro err herr
    rcases hf : firstFree used with _ | j
    all_goals simp only [vaapi_get_buffer, hf] at herr ⊢
    split_ifs at herr ⊢
    all_goals rfl
  · intro i hok
    rcases hf : firstFree used with _ | j
    all_goals simp only [vaapi_get_buffer, hf] at hok ⊢
    · exact Except.noConfusion hok
    · split_ifs at hok ⊢
      cases Except.ok.inj hok
      refine ⟨?_, ?_, ?_, rfl⟩ <;> assumption

/-- C10 witness: a concrete failing call (config-reference failure on a
one-slot pool) leaves the flags unchanged, and a concrete successful
call sets exactly the returned slot. -/
theorem C10_failure_no_flag_change_witness :
    (vaapi_get_buffer ⟨true, false, true⟩ [false]).2 = [false] ∧
    ((true : Bool) = true ∧ (true : Bool) = true ∧ (true : Bool) = true ∧
      (vaapi_get_buffer ⟨true, true, true⟩ [false]).2 = [false].set 0 true) :=
  ⟨(C10_failure_no_flag_change ⟨true, false, true⟩ [false]).1
      GetBufErr.refConfigFailed rfl,
   (C10_failure_no_flag_change ⟨true, true, true⟩ [false]).2 0 rfl⟩

/-! ## Claim C6: format negotiation policy -/

/-- C6: the static table is YV12→YUV420P then NV12→NV12 in that priority
order; zero driver-reported formats makes `pick_format` fail; an empty
intersection makes it fail on every path; and a successful negotiation
selects the first static-table entry whose fourcc the driver enumerates
(every earlier static entry has no driver match), pairing it with a
driver descriptor of that fourcc. -/
theorem C6_format_negotiation (maxN : Nat) (allocOk queryOk : Bool)
    (fmts : List VAImageFormat) :
    vaapi_formats = [(VA_FOURCC_YV12, PixFmt.yuv420p),
                     (VA_FOURCC_NV12, PixFmt.nv12)] ∧
    (maxN = 0 → pick_format maxN allocOk queryOk fmts =
      Except.error PickErr.einval) ∧
    ((∀ p ∈ vaapi_formats, ∀ g ∈ fmts, g.fourcc ≠ p.1) →
      ∃ err, pick_format maxN allocOk queryOk fmts = Except.error err) ∧
    (∀ f pf, pick_format maxN allocOk queryOk fmts = Except.ok (f, pf) →
      ∃ pre post fcc, vaapi_formats = pre ++ (fcc, pf) :: post ∧
        f.fourcc = fcc ∧ f ∈ fmts ∧
        ∀ p ∈ pre, ∀ g ∈ fmts, g.fourcc ≠ p.1) := by
  refine ⟨rfl, ?_, ?_, ?_⟩
  · intro h0
    simp [pick_format, h0]
  · intro hno
    have hY : fmts.find? (fun g => g.fourcc == VA_FOURCC_YV12) = none := by
      rw [List.find?_eq_none]
      intro x hx
      simpa using hno (VA_FOURCC_YV12, PixFmt.yuv420p) (by simp [vaapi_formats]) x hx
    have hN : fmts.find? (fun g => g.fourcc == VA_FOURCC_NV12) = none := by
      rw [List.find?_eq_none]
      intro x hx
      simpa using hno (VA_FOURCC_NV12, PixFmt.nv12) (by simp [vaapi_formats]) x hx
    unfold pick_format
    split_ifs
    all_goals
      first
        | exact ⟨PickErr.einval, rfl⟩
        | exact ⟨PickErr.enomem, rfl⟩
        | (simp only [vaapi_formats, pickLoop, hY, hN]
           exact ⟨PickErr.einval, rfl⟩)
  · intro f pf hok
    unfold pick_format at hok
    split_ifs at hok
    rcases hY : fmts.find? (fun g => g.fourcc == VA_FOURCC_YV12) with _ | fY
    · rcases hN : fmts.find? (fun g => g.fourcc == VA_FOURCC_NV12) with _ | fN
      · simp only [vaapi_formats, pickLoop, hY, hN] at hok
        exact Except.noConfusion hok
      · simp only [vaapi_formats, pickLoop, hY, hN] at hok
        have h2 := Except.ok.inj hok
        have hf : fN = f := congrArg Prod.fst h2
        have hpf : PixFmt.nv12 = pf := congrArg Prod.snd h2
        subst hf
        subst hpf
        refine ⟨[(VA_FOURCC_YV12, PixFmt.yuv420p)], [], VA_FOURCC_NV12,
          rfl, ?_, List.mem_of_find?_eq_some hN, ?_⟩
        · simpa using List.find?_some hN
        · intro p hp g hg
          rcases List.mem_singleton.mp hp with rfl
          have := List.find?_eq_none.mp hY g hg
          simpa using this
    · simp only [vaapi_formats, pickLoop, hY] at hok
      have h2 := Except.ok.inj hok
      have hf : fY = f := congrArg Prod.fst h2
      have hpf : PixFmt.yuv420p = pf := congrArg Prod.snd h2
      subst hf
      subst hpf
      refine ⟨[], [(VA_FOURCC_NV12, PixFmt.nv12)], VA_FOURCC_YV12,
        rfl, ?_, List.mem_of_find?_eq_some hY, ?_⟩
      · simpa using List.find?_some hY
      · intro p hp g hg
        simp at hp

/-- C6 witness: a driver reporting zero formats makes negotiation fail,
and a driver list containing NV12 but not YV12 selects the NV12 entry. -/
theorem C6_format_negotiation_witness :
    pick_format 0 true true [] = Except.error PickErr.einval ∧
    pick_format 1 true true [⟨VA_FOURCC_NV12, 77⟩] =
      Except.ok (⟨VA_FOURCC_NV12, 77⟩, PixFmt.nv12) :=
  ⟨(C6_format_negotiation 0 true true []).2.1 rfl, rfl⟩

/-! ## Lemmas about the retrieval frame layout -/

theorem listGetD_eq_get {α : Type} :
    ∀ (l : List α) (i : Nat) (d : α), l.getD i d = (l.get? i).getD d := by
  intro l
  induction l with
  | nil => intro i d; cases i <;> rfl
  | cons x xs ih =>
    intro i d
    cases i with
    | zero => rfl
    | succ k => exact ih k d

theorem planesOf_get (base : Nat) (im : VAImageT) (i : Nat)
    (hi : i < im.num_planes) (h8 : i < 8) :
    (planesOf base im).get? i = some (base + im.offsets i) := by
  unfold planesOf
  rw [List.get?_map, List.get?_range h8]
  simp [hi]

theorem linesizesOf_get (im : VAImageT) (i : Nat)
    (hi : i < im.num_planes) (h8 : i < 8) :
    (linesizesOf im).get? i = some (im.pitches i) := by
  unfold linesizesOf
  rw [List.get?_map, List.get?_range h8]
  simp [hi]

theorem swap12_get_one (l : List Nat) (h : 2 < l.length) :
    (swap12 l).get? 1 = l.get? 2 := by
  unfold swap12
  rw [listGet_set_other (l.set 1 (l.getD 2 0)) 2 1 (l.getD 1 0) (by omega),
      listGet_set_self l 1 (l.getD 2 0) (by omega),
      listGetD_eq_get, List.get?_eq_get h]
  rfl

theorem swap12_get_two (l : List Nat) (h : 2 < l.length) :
    (swap12 l).get? 2 = l.get? 1 := by
  unfold swap12
  rw [listGet_set_self (l.set 1 (l.getD 2 0)) 2 (l.getD 1 0)
        (by rw [List.length_set]; omega),
      listGetD_eq_get, List.get?_eq_get (by omega : 1 < l.length)]
  rfl

theorem swap12_get_other (l : List Nat) (i : Nat) (h1 : i ≠ 1) (h2 : i ≠ 2) :
    (swap12 l).get? i = l.get? i := by
  unfold swap12
  rw [listGet_set_other _ 2 i _ (fun he => h2 he.symm),
      listGet_set_other _ 1 i _ (fun he => h1 he.symm)]

theorem planesOf_length (base : Nat) (im : VAImageT) :
    (planesOf base im).length = 8 := by
  simp [planesOf]

/-! ## Claim C7: replacement-frame layout and chroma swap -/

/-- C7: on a successful `vaapi_retrieve_data`, the replacement frame has
the original frame's dimensions and the negotiated format; its per-plane
strides are the image's declared pitches; when the negotiated format is
NV12 the plane pointers are exactly mapped-base + declared offsets (no
swap); when it is YUV420P (negotiated from YV12) the frame's data array
is the direct-copy array with planes 1 and 2 exchanged — plane 1 holds
the direct copy's plane 2 pointer and vice versa, all other entries
unchanged, the direct-copy pointers being base + offsets. -/
theorem C7_retrieve_layout (e : RetrieveEnv) (frame frame2 : AVFrame)
    (im : VAImageT) (base : Nat) (res : ImgRes)
    (him : e.createImageRes = some im) (hmap : e.mapRes = some base)
    (h : vaapi_retrieve_data e frame = (Except.ok (), frame2, res)) :
    frame2.width = frame.width ∧ frame2.height = frame.height ∧
    frame2.format = FrameFormat.pix e.pix_fmt ∧
    (∀ i, i < im.num_planes → i < 8 →
      frame2.linesize.get? i = some (im.pitches i)) ∧
    (e.pix_fmt = PixFmt.nv12 → frame2.data = planesOf base im ∧
      ∀ i, i < im.num_planes → i < 8 →
        frame2.data.get? i = some (base + im.offsets i)) ∧
    (e.pix_fmt = PixFmt.yuv420p → frame2.data = swap12 (planesOf base im) ∧
      frame2.data.get? 1 = (planesOf base im).get? 2 ∧
      frame2.data.get? 2 = (planesOf base im).get? 1 ∧
      (∀ i, i ≠ 1 → i ≠ 2 →
        frame2.data.get? i = (planesOf base im).get? i) ∧
      ∀ i, i < im.num_planes → i < 8 →
        (planesOf base im).get? i = some (base + im.offsets i)) := by
  simp only [vaapi_retrieve_data, him, hmap] at h
  split_ifs at h
  all_goals try exact Except.noConfusion (congrArg Prod.fst h)
  all_goals
    have hfr := congrArg (fun x : Except RetErr Unit × AVFrame × ImgRes => x.2.1) h
  all_goals subst hfr
  · rename_i hy
    refine ⟨rfl, rfl, rfl, ?_, ?_, ?_⟩
    · intro i hi h8
      exact linesizesOf_get im i hi h8
    · intro hpf
      rw [hy] at hpf
      exact PixFmt.noConfusion hpf
    · intro _
      have hlen : 2 < (planesOf base im).length := by
        rw [planesOf_length]; omega
      exact ⟨rfl, swap12_get_one _ hlen, swap12_get_two _ hlen,
        fun i h1 h2 => swap12_get_other _ i h1 h2,
        fun i hi h8 => planesOf_get base im i hi h8⟩
  · rename_i hn
    refine ⟨rfl, rfl, rfl, ?_, ?_, ?_⟩
    · intro i hi h8
      exact linesizesOf_get im i hi h8
    · intro _
      exact ⟨rfl, fun i hi h8 => planesOf_get base im i hi h8⟩
    · intro hpf
      exact absurd hpf hn

/-- The driver image of the concrete C7 run: 3 planes, offsets 0/64/80,
pitches 16/8/8. -/
def imC7 : VAImageT :=
  { image_id := 3, buf := 4, data_size := 96, num_planes := 3,
    offsets := fun i => if i = 0 then 0 else if i = 1 then 64 else 80,
    pitches := fun i => if i = 0 then 16 else 8 }

/-- A concrete retrieval environment: YUV420P negotiated, the image
`imC7` mapped at base address 1000, every step succeeding. -/
def envC7 : RetrieveEnv :=
  { imgAllocOk := true, ctxRefOk := true, createImageRes := some imC7,
    getImageOk := true, mapRes := some 1000, bufCreateOk := true,
    copyPropsOk := true, pix_fmt := PixFmt.yuv420p }

/-- A concrete hardware frame entering retrieval. -/
def frameC7 : AVFrame :=
  { data := [0, 0, 0, 21, 0, 0, 0, 0], linesize := [0, 0, 0, 0, 0, 0, 0, 0],
    width := 16, height := 4, format := FrameFormat.vaapiVld, props := 5 }

/-- C7 witness: the layout facts evaluated on the concrete run `envC7`:
the chroma planes come out swapped (plane 1 holds base+80, plane 2 holds
base+64, plane 0 holds the base), strides follow the pitches, dimensions
follow the original frame. -/
theorem C7_retrieve_layout_witness :
    (vaapi_retrieve_data envC7 frameC7).2.1.width = 16 ∧
    (vaapi_retrieve_data envC7 frameC7).2.1.data.get? 1 = some 1080 ∧
    (vaapi_retrieve_data envC7 frameC7).2.1.data.get? 2 = some 1064 ∧
    (vaapi_retrieve_data envC7 frameC7).2.1.data.get? 0 = some 1000 ∧
    (vaapi_retrieve_data envC7 frameC7).2.1.linesize.get? 1 = some 8 := by
  have h := C7_retrieve_layout envC7 frameC7
    (vaapi_retrieve_data envC7 frameC7).2.1 imC7 1000
    (vaapi_retrieve_data envC7 frameC7).2.2 rfl rfl rfl
  have hy := h.2.2.2.2.2 rfl
  refine ⟨h.1, ?_, ?_, ?_, ?_⟩
  · rw [hy.2.1]
    rfl
  · rw [hy.2.2.1]
    rfl
  · rw [hy.2.2.2.1 0 (by decide) (by decide)]
    rfl
  · exact h.2.2.2.1 1 (by decide) (by decide)

/-! ## Claim C8: failure rollback in vaapi_retrieve_data -/

/-- The error-classification of `vaapi_retrieve_data`, one kind per
fallible step in program order (lines 129–190): `none` means the call
succeeds. -/
def classifyRet (e : RetrieveEnv) : Option RetErr :=
  if ¬ e.imgAllocOk then some RetErr.enomemImg
  else if ¬ e.ctxRefOk then some RetErr.enomemRef
  else
    match e.createImageRes with
    | none => some RetErr.createImageFailed
    | some _ =>
      if ¬ e.getImageOk then some RetErr.getImageFailed
      else
        match e.mapRes with
        | none => some RetErr.mapBufferFailed
        | some _ =>
          if ¬ e.bufCreateOk then some RetErr.enomemBufCreate
          else if ¬ e.copyPropsOk then some RetErr.copyPropsFailed
          else none

/-- Componentwise inversion of an equality of triples. -/
theorem tripleEq {α β γ : Type} {a a2 : α} {b b2 : β} {c c2 : γ}
    (h : (a, b, c) = (a2, b2, c2)) : a = a2 ∧ b = b2 ∧ c = c2 := by
  cases h
  exact ⟨rfl, rfl, rfl⟩

/-- `vaapi_free_image` on an image whose driver handles are valid
releases all four resources, whatever their prior state. -/
theorem free_image_all (bufId imgId : Nat) (r : ImgRes)
    (hb : bufId ≠ VA_INVALID_ID) (hi : imgId ≠ VA_INVALID_ID) :
    vaapi_free_image bufId imgId r = allFreed := by
  unfold vaapi_free_image
  rw [if_pos hb, if_pos hi]
  rfl

/-- C8: whenever `vaapi_retrieve_data` fails — at host allocation, the
device reference, image creation, the surface copy, the buffer mapping,
the buffer wrapping, or the metadata copy — the caller's frame is
returned unchanged, all four image resources (host struct, device
reference, driver image, mapped buffer) end up released, and the error
is exactly the classification of the first failing stage.  The driver
contract assumed is that a successfully created image carries valid
(non-sentinel) image and buffer handles. -/
theorem C8_failure_cleanup (e : RetrieveEnv) (frame frame2 : AVFrame)
    (err : RetErr) (res : ImgRes)
    (hdrv : ∀ im, e.createImageRes = some im →
      im.image_id ≠ VA_INVALID_ID ∧ im.buf ≠ VA_INVALID_ID)
    (h : vaapi_retrieve_data e frame = (Except.error err, frame2, res)) :
    frame2 = frame ∧ res = allFreed ∧ classifyRet e = some err := by
  rcases him : e.createImageRes with _ | im
  · simp only [vaapi_retrieve_data, classifyRet, him] at h ⊢
    split_ifs at h ⊢
    all_goals obtain ⟨herr, hfr, hres⟩ := tripleEq h
    all_goals cases Except.error.inj herr
    all_goals exact ⟨hfr.symm, hres.symm, rfl⟩
  · obtain ⟨hid1, hid2⟩ := hdrv im him
    rcases hmap : e.mapRes with _ | base
    all_goals simp only [vaapi_retrieve_data, classifyRet, him, hmap] at h ⊢
    all_goals split_ifs at h ⊢
    all_goals try exact Except.noConfusion (congrArg Prod.fst h)
    all_goals obtain ⟨herr, hfr, hres⟩ := tripleEq h
    all_goals cases Except.error.inj herr
    all_goals refine ⟨hfr.symm, ?_, rfl⟩
    all_goals
      first
        | exact hres.symm
        | exact hres.symm.trans (free_image_all im.buf im.image_id _
            hid2 hid1)

/-- A concrete failing retrieval environment: the surface-copy step
(`vaGetImage`) fails. -/
def envC8 : RetrieveEnv :=
  { imgAllocOk := true, ctxRefOk := true, createImageRes := some imC7,
    getImageOk := false, mapRes := some 1000, bufCreateOk := true,
    copyPropsOk := true, pix_fmt := PixFmt.yuv420p }

/-- C8 witness: on the concrete copy-failure run, the original frame is
returned untouched, every image resource is released, and the error is
the surface-copy classification. -/
theorem C8_failure_cleanup_witness :
    (vaapi_retrieve_data envC8 frameC7).2.1 = frameC7 ∧
    (vaapi_retrieve_data envC8 frameC7).2.2 = allFreed ∧
    classifyRet envC8 = some RetErr.getImageFailed :=
  C8_failure_cleanup envC8 frameC7 (vaapi_retrieve_data envC8 frameC7).2.1
    RetErr.getImageFailed (vaapi_retrieve_data envC8 frameC7).2.2
    (fun im him => by cases him; exact ⟨by decide, by decide⟩) rfl

end FfmpegVaapi
